import Mathlib

/-!
Verification of the SCUpgradeHelper ingestion-to-insight pipeline.

Shallow embedding of the Python sources:
  * `src/const.py`            — fuzzy-match threshold constants and function
  * `src/db/entity.py`        — entity rows, natural keys, loaddate listeners
  * `src/db/manager.py`       — `EntityManager` reconciliation and name lookup
  * `src/data/provider.py`    — `Expiry` TTL gate
  * `src/data/analyze.py`     — `PathAnalyzer` shortest-path queries
  * `src/broker.py`           — `SCDataBroker._update_reddit_entries`

Machine integers are modelled as `Nat`/`Int`; price floats, which flow only
through exact equality tests, order comparisons and sums of whole-valued
literals in the claims at hand, are modelled as `Int`; fallible code
returns `Option`/`Except` (a comment at each site names the Python
exception being modelled).
-/

/- ### src/const.py -/

/-- `UPDATE_LOGS_ENTRY_LIMIT` from `src/const.py` line 13. -/
def UPDATE_LOGS_ENTRY_LIMIT : Nat := 100

/-- `FUZZY_SEARCH_PERFECT_MATCH_MIN_SCORE` from `src/const.py` line 61. -/
def FUZZY_SEARCH_PERFECT_MATCH_MIN_SCORE : Nat := 90

/-- `_FUZZY_SEARCH_MIN_SCORE_BASE` from `src/const.py` line 63. -/
def FUZZY_SEARCH_MIN_SCORE_BASE : Nat := 65

/-- `_FUZZY_SEARCH_MIN_SCORE_MAX_OFFSET` from `src/const.py` line 64. -/
def FUZZY_SEARCH_MIN_SCORE_MAX_OFFSET : Nat := 10

/-- `fuzzy_search_min_score` from `src/const.py` lines 68-75:
`BASE - (10 - min(max(floor(length * 0.3), 0), MAX_OFFSET))`.
For a non-negative integer `length`, the Python expression
`floor(length * 0.3)` (binary64 multiplication) equals `3 * length / 10`
in exact integer arithmetic: the double nearest 0.3 is
`5404319552844595/2^54 = 0.3·(1 − δ)` with `δ < 2^-54`, so the correctly
rounded product `length * 0.3` rounds to `3·length/10` whenever that is an
integer and otherwise stays within the same unit interval, leaving the
floor unchanged. -/
def fuzzy_search_min_score (length : Nat) : Nat :=
  FUZZY_SEARCH_MIN_SCORE_BASE -
    (10 - min (max (3 * length / 10) 0) FUZZY_SEARCH_MIN_SCORE_MAX_OFFSET)

/-- Modelled from the spec: the threshold formula as §4.3 of the spec words
it, `minScore(len) = base - clamp(floor(len * 0.3), 0, 10)` with
`base = 65`.  Kept separate so it can be compared with the source's
`fuzzy_search_min_score`. -/
def spec_min_score (length : Nat) : Nat :=
  FUZZY_SEARCH_MIN_SCORE_BASE - min (max (3 * length / 10) 0) 10

/-- Closed form of the source threshold: it *rises* from 55 towards 65 as
the length grows. -/
theorem fuzzy_search_min_score_eq (n : Nat) :
    fuzzy_search_min_score n = 55 + min (3 * n / 10) 10 := by
  unfold fuzzy_search_min_score FUZZY_SEARCH_MIN_SCORE_BASE
    FUZZY_SEARCH_MIN_SCORE_MAX_OFFSET
  have h : min (max (3 * n / 10) 0) 10 ≤ 10 := min_le_right _ _
  omega

/- ### src/data/provider.py — `Expiry` -/

/-- Return value of `Expiry.expires_in` (`src/data/provider.py` lines
37-45).  The Python function returns a `str`: either the literal sentinel
`"(not expired)"` or `format_timedelta(last_updated + lifetime - now)`;
the model keeps the `timedelta` argument of the formatting call. -/
inductive ExpiresInStr where
  | notExpiredSentinel : ExpiresInStr
  | formatted : Int → ExpiresInStr
deriving DecidableEq, Repr

/-- `Expiry.is_expired` from `src/data/provider.py` lines 27-35.
`last_updated` is `None`-able; timestamps are integer instants. -/
def is_expired (lastUpdated : Option Int) (lifetime now : Int) : Bool :=
  match lastUpdated with
  | none => true
  | some t => decide (t + lifetime < now)

/-- `Expiry.expires_in` from `src/data/provider.py` lines 37-45.  The
result is wrapped in `Option` to model the Python return-value domain: the
function always returns a string, never `None`.  The `none` fallback for a
missing `last_updated` in the non-expired branch is unreachable because
`is_expired` is `true` whenever `last_updated is None`. -/
def expires_in (lastUpdated : Option Int) (lifetime now : Int) :
    Option ExpiresInStr :=
  if is_expired lastUpdated lifetime now then
    some ExpiresInStr.notExpiredSentinel
  else
    match lastUpdated with
    | some t => some (ExpiresInStr.formatted (t + lifetime - now))
    | none => some ExpiresInStr.notExpiredSentinel

/- ### src/db/manager.py — best-candidate selection in
`find_ship_id_by_name` (lines 378-392) -/

/-- Stable descending-by-length insertion used to model
`best_candidates.sort(key=lambda c: len(c[0]), reverse=True)` (Python's
sort is stable, so among equal lengths the earlier element stays first). -/
def insertByLenDesc (x : String × Nat) :
    List (String × Nat) → List (String × Nat)
  | [] => [x]
  | y :: ys =>
    if y.1.length > x.1.length then y :: insertByLenDesc x ys
    else x :: y :: ys

/-- Stable sort by candidate-string length, descending. -/
def sortByLenDesc (l : List (String × Nat)) : List (String × Nat) :=
  l.foldr insertByLenDesc []

/-- Lines 385-388 of `src/db/manager.py`: take the maximum score of the
`process.extract` results, keep the ties at that maximum, sort them by
candidate length descending (stable) and take the first.  `results` is the
output of the external `fuzzywuzzy` call and is passed in as data; `none`
models the `ValueError` of `max([])` on an empty result list. -/
def best_result (results : List (String × Nat)) :
    Option (String × Nat) :=
  match (results.map (·.2)).max? with
  | none => none
  | some maxScore =>
    (sortByLenDesc (results.filter (fun c => c.2 = maxScore))).head?

/-- Line 390-392 of `src/db/manager.py`: the acceptance test
`result[1] >= fuzzy_search_min_score(min(len(name), len(result[0])))`. -/
def accept_candidate (name : String) (results : List (String × Nat)) :
    Bool :=
  match best_result results with
  | none => false
  | some r =>
    decide (fuzzy_search_min_score (min name.length r.1.length) ≤ r.2)

/- ### src/db/entity.py — entity rows and natural keys -/

/-- `Store` from `src/db/entity.py` lines 144-170: surrogate `id`,
`username`, `url`. -/
structure StoreRow where
  id : Nat
  username : String
  url : String
deriving DecidableEq, Repr

/-- `Standalone` from `src/db/entity.py` lines 190-215: surrogate `id`,
`ship_id`, `price_usd`, `store_id`, `needs_review`, `loaddate`.
Timestamps are integer instants (`Nat`). -/
structure StandaloneRow where
  id : Nat
  ship_id : Nat
  price_usd : Int
  store_id : Nat
  needs_review : Bool
  loaddate : Nat
deriving DecidableEq, Repr

/-- A `Standalone` candidate as constructed by the broker
(`src/broker.py` lines 163-171): no surrogate `id` and no `loaddate`
yet (both are `None` until the row is persisted). -/
structure StandaloneCand where
  ship_id : Nat
  price_usd : Int
  store_id : Nat
  needs_review : Bool
deriving DecidableEq, Repr

/-- `Upgrade` from `src/db/entity.py` lines 231-261: surrogate `id`,
`ship_id_from`, `ship_id_to`, `price_usd`, `store_id`, `needs_review`,
`loaddate`. -/
structure UpgradeRow where
  id : Nat
  ship_id_from : Nat
  ship_id_to : Nat
  price_usd : Int
  store_id : Nat
  needs_review : Bool
  loaddate : Nat
deriving DecidableEq, Repr

/-- An `Upgrade` candidate as constructed by the broker
(`src/broker.py` lines 183-192): no surrogate `id`, no `loaddate`. -/
structure UpgradeCand where
  ship_id_from : Nat
  ship_id_to : Nat
  price_usd : Int
  store_id : Nat
  needs_review : Bool
deriving DecidableEq, Repr

/-- `Standalone.__eq__` between a candidate and a persisted row
(`src/db/entity.py` lines 186-199): compares `price_usd`, `store_id` and
`ship_id` only — the natural key, never the surrogate `id`. -/
def standaloneMatchesRow (c : StandaloneCand) (r : StandaloneRow) : Bool :=
  c.price_usd = r.price_usd ∧ c.store_id = r.store_id ∧ c.ship_id = r.ship_id

/-- `Standalone.__eq__`/`__hash__` between two candidates: natural-key
equality `(ship_id, price_usd, store_id)`. -/
def standaloneSameKey (c d : StandaloneCand) : Bool :=
  c.price_usd = d.price_usd ∧ c.store_id = d.store_id ∧ c.ship_id = d.ship_id

/- ### src/db/manager.py — reconciliation (`_update_entities` for the
`UpdateType.RSI_STANDALONES` category) -/

/-- `RSI_SCRAPER_STORE_OWNER`, the store-owner constant used by
`_query_rsi_standalones` (`src/db/manager.py` lines 72-75). -/
def RSI_SCRAPER_STORE_OWNER : String := "RSI"

/-- `RSI_STANDALONE_DATA_EXPIRY` from `src/const.py` line 9
(`timedelta(days=1)`), in seconds. -/
def RSI_STANDALONE_DATA_EXPIRY : Nat := 86400

/-- Update-log rows (`UpdateLog` in `src/db/entity.py` lines 286-300):
`update_type` tag and `loaddate`.  Only standalone-category tags appear in
the claims, so the tag is kept as the source's enum. -/
inductive UpdateTypeT where
  | manufacturers | ships | rsiStandalones | rsiUpgrades
  | redditStandalones | redditUpgrades
deriving DecidableEq, Repr

/-- Persisted database state: `STORES`, `STANDALONES` and `UPDATELOGS`
tables (the tables the standalone-category claims touch). -/
structure DB where
  stores : List StoreRow
  standalones : List StandaloneRow
  logs : List (UpdateTypeT × Nat)
deriving DecidableEq, Repr

/-- `_query_rsi_standalones` / `_get_entities(UpdateType.RSI_STANDALONES)`
(`src/db/manager.py` lines 72-75, 264-265): standalones whose store's
`username` is the RSI scraper owner. -/
def rsi_standalones (db : DB) : List StandaloneRow :=
  db.standalones.filter (fun r =>
    db.stores.any (fun s => s.id = r.store_id ∧
      s.username = RSI_SCRAPER_STORE_OWNER))

/-- Staleness test from `_remove_stale_entities`
(`src/db/manager.py` line 110): `now - standalone.loaddate > EXPIRY`. -/
def standaloneStale (r : StandaloneRow) (now : Nat) : Bool :=
  now - r.loaddate > RSI_STANDALONE_DATA_EXPIRY

/-- `_remove_stale_entities(UpdateType.RSI_STANDALONES)`
(`src/db/manager.py` lines 105-111, 138-141): delete every standalone row
(of any store) whose `loaddate` age exceeds the category expiry. -/
def remove_stale_entities (db : DB) (now : Nat) : DB :=
  { db with standalones :=
      db.standalones.filter (fun r => ¬ standaloneStale r now) }

/-- `_entity_exists` for `Standalone` (`src/db/manager.py` lines 180-186):
a row with the candidate's `price_usd`, `store_id` and `ship_id` exists. -/
def entity_exists (rows : List StandaloneRow) (c : StandaloneCand) : Bool :=
  rows.any (standaloneMatchesRow c)

/-- `set(entities)` on line 217 of `src/db/manager.py`: deduplicate the
candidate list by `__hash__`/`__eq__`, i.e. by natural key, keeping one
representative per key (Python's set keeps the first element inserted
among equals; the hash-table iteration order is modelled as insertion
order). -/
def pySet (l : List StandaloneCand) : List StandaloneCand :=
  l.foldl (fun acc c =>
    if acc.any (fun d => standaloneSameKey d c) then acc else acc ++ [c]) []

/-- Next autoincrement surrogate id for the `STANDALONES` table. -/
def nextStandaloneId (rows : List StandaloneRow) : Nat :=
  (rows.map (·.id)).foldl max 0 + 1

/-- Rows inserted by `self._session.merge(entity)` for candidates that
carry no surrogate id: each gets a fresh autoincrement id, and the
`before_insert` listener `update_standalone_loaddate`
(`src/db/entity.py` lines 218-228) sets `loaddate` to the current time. -/
def mkStandaloneRows (firstId : Nat) (now : Nat) :
    List StandaloneCand → List StandaloneRow
  | [] => []
  | c :: rest =>
    ⟨firstId, c.ship_id, c.price_usd, c.store_id, c.needs_review, now⟩ ::
      mkStandaloneRows (firstId + 1) now rest

/-- The candidates that `_update_entities` actually persists
(`src/db/manager.py` lines 216-234): starting from the deduplicated set,
drop those whose natural key exists in the database *after* stale
removal (line 223-225), then drop those equal (by `__eq__`, i.e. natural
key) to a row of the category snapshot taken *before* stale removal
(line 231). -/
def standalonesToInsert (db : DB) (cands : List StandaloneCand)
    (now : Nat) : List StandaloneCand :=
  let existing := rsi_standalones db
  let cleaned := (pySet cands).filter (fun e =>
    ¬ entity_exists (remove_stale_entities db now).standalones e)
  cleaned.filter (fun e => ¬ existing.any (standaloneMatchesRow e))

/-- `_update_entities(entities, UpdateType.RSI_STANDALONES)`
(`src/db/manager.py` lines 201-250): empty input returns 0 immediately;
otherwise stale rows are deleted, the surviving filtered candidates are
inserted (each counted once) and the count of added-or-updated rows is
returned.  Candidates filtered out are ignored — the source logs them as
"already existing entries were ignored". -/
def update_entities_rsi_standalones (db : DB)
    (cands : List StandaloneCand) (now : Nat) : DB × Nat :=
  if cands.isEmpty then (db, 0)
  else
    let db2 := remove_stale_entities db now
    let ins := standalonesToInsert db cands now
    ({ db2 with standalones :=
        db2.standalones ++
          mkStandaloneRows (nextStandaloneId db2.standalones) now ins },
      ins.length)

/-- `_log_update` (`src/db/manager.py` lines 337-344): append one
`UpdateLog` row for the category, stamped now. -/
def log_update (db : DB) (t : UpdateTypeT) (now : Nat) : DB :=
  { db with logs := db.logs ++ [(t, now)] }

/-- `update_rsi_standalones` (`src/db/manager.py` lines 295-303):
run `_update_entities` for the category, then `_log_update`. -/
def update_rsi_standalones (db : DB) (cands : List StandaloneCand)
    (now : Nat) : DB × Nat :=
  let r := update_entities_rsi_standalones db cands now
  (log_update r.1 UpdateTypeT.rsiStandalones now, r.2)

/-- Number of update-log rows held for one category. -/
def logCountFor (db : DB) (t : UpdateTypeT) : Nat :=
  (db.logs.filter (fun l => l.1 = t)).length

/- ### Supporting lemmas about the reconciliation model -/

/-- Natural-key equality of candidates is reflexive. -/
theorem standaloneSameKey_refl (c : StandaloneCand) :
    standaloneSameKey c c = true := by
  simp [standaloneSameKey]

/-- Candidates with equal natural keys match exactly the same rows. -/
theorem standaloneMatchesRow_of_sameKey {c d : StandaloneCand}
    (h : standaloneSameKey d c = true) (r : StandaloneRow) :
    standaloneMatchesRow d r = standaloneMatchesRow c r := by
  simp only [standaloneSameKey, Bool.and_eq_true, decide_eq_true_eq] at h
  simp only [standaloneMatchesRow, h.1, h.2.1, h.2.2]

/-- The fold underlying `pySet` only ever appends. -/
theorem pySet_fold_mono (l : List StandaloneCand)
    (acc : List StandaloneCand) {x : StandaloneCand} (hx : x ∈ acc) :
    x ∈ l.foldl (fun acc c =>
      if acc.any (fun d => standaloneSameKey d c) then acc
      else acc ++ [c]) acc := by
  induction l generalizing acc with
  | nil => exact hx
  | cons a rest ih =>
    simp only [List.foldl_cons]
    by_cases h : acc.any (fun d => standaloneSameKey d a) = true
    · simp only [h, if_pos]
      exact ih acc hx
    · simp only [h]
      exact ih _ (List.mem_append_left _ hx)

/-- Every element produced by the `pySet` fold comes from the accumulator
or from the input list. -/
theorem pySet_fold_subset (l : List StandaloneCand)
    (acc : List StandaloneCand) {x : StandaloneCand}
    (hx : x ∈ l.foldl (fun acc c =>
      if acc.any (fun d => standaloneSameKey d c) then acc
      else acc ++ [c]) acc) :
    x ∈ acc ∨ x ∈ l := by
  induction l generalizing acc with
  | nil => exact Or.inl hx
  | cons a rest ih =>
    simp only [List.foldl_cons] at hx
    by_cases h : acc.any (fun d => standaloneSameKey d a) = true
    · simp only [h, if_pos] at hx
      rcases ih acc hx with h' | h'
      · exact Or.inl h'
      · exact Or.inr (List.mem_cons_of_mem _ h')
    · simp only [h] at hx
      rcases ih _ hx with h' | h'
      · rcases List.mem_append.mp h' with h'' | h''
        · exact Or.inl h''
        · simp only [List.mem_singleton] at h''
          exact Or.inr (h'' ▸ List.mem_cons_self _ _)
      · exact Or.inr (List.mem_cons_of_mem _ h')

/-- `pySet` only returns elements of its input. -/
theorem pySet_subset {l : List StandaloneCand} {x : StandaloneCand}
    (hx : x ∈ pySet l) : x ∈ l := by
  rcases pySet_fold_subset l [] hx with h | h
  · cases h
  · exact h

/-- Every input candidate has a key-equal representative in the `pySet`
fold result. -/
theorem pySet_fold_covers (l : List StandaloneCand)
    (acc : List StandaloneCand) {c : StandaloneCand} (hc : c ∈ l) :
    ∃ d ∈ l.foldl (fun acc c =>
      if acc.any (fun d => standaloneSameKey d c) then acc
      else acc ++ [c]) acc, standaloneSameKey d c = true := by
  induction l generalizing acc with
  | nil => cases hc
  | cons a rest ih =>
    simp only [List.foldl_cons]
    rcases List.mem_cons.mp hc with rfl | hc'
    · by_cases h : acc.any (fun d => standaloneSameKey d c) = true
      · simp only [h, if_pos]
        rcases List.any_eq_true.mp h with ⟨d, hd, hkey⟩
        exact ⟨d, pySet_fold_mono rest acc hd, hkey⟩
      · simp only [h]
        exact ⟨c, pySet_fold_mono rest _
          (List.mem_append_right _ (List.mem_singleton.mpr rfl)),
          standaloneSameKey_refl c⟩
    · by_cases h : acc.any (fun d => standaloneSameKey d a) = true
      · simp only [h, if_pos]
        exact ih acc hc'
      · simp only [h]
        exact ih _ hc'

/-- Every input candidate has a key-equal representative in `pySet`. -/
theorem pySet_covers {l : List StandaloneCand} {c : StandaloneCand}
    (hc : c ∈ l) : ∃ d ∈ pySet l, standaloneSameKey d c = true :=
  pySet_fold_covers l [] hc

/-- The `pySet` fold preserves pairwise key-distinctness of the
accumulator. -/
theorem pySet_fold_pairwise (l : List StandaloneCand)
    (acc : List StandaloneCand)
    (hacc : acc.Pairwise (fun a b => standaloneSameKey a b = false)) :
    (l.foldl (fun acc c =>
      if acc.any (fun d => standaloneSameKey d c) then acc
      else acc ++ [c]) acc).Pairwise
        (fun a b => standaloneSameKey a b = false) := by
  induction l generalizing acc with
  | nil => exact hacc
  | cons a rest ih =>
    simp only [List.foldl_cons]
    by_cases h : acc.any (fun d => standaloneSameKey d a) = true
    · simp only [h, if_pos]
      exact ih acc hacc
    · simp only [h]
      refine ih _ (List.pairwise_append.mpr ⟨hacc, List.pairwise_singleton _ _, ?_⟩)
      intro x hx y hy
      simp only [List.mem_singleton] at hy
      have h' : acc.any (fun d => standaloneSameKey d a) = false :=
        eq_false_of_ne_true h
      have h'' := List.any_eq_false.mp h' x hx
      rw [hy]
      simpa using h''

/-- `pySet` produces a list whose natural keys are pairwise distinct. -/
theorem pySet_pairwise (l : List StandaloneCand) :
    (pySet l).Pairwise (fun a b => standaloneSameKey a b = false) :=
  pySet_fold_pairwise l [] (List.Pairwise.nil)

/-- Every row freshly inserted by the update carries the fields of one of
the inserted candidates and `loaddate = now`. -/
theorem mem_mkStandaloneRows {k now : Nat} {ins : List StandaloneCand}
    {row : StandaloneRow} (h : row ∈ mkStandaloneRows k now ins) :
    ∃ e ∈ ins, row.ship_id = e.ship_id ∧ row.price_usd = e.price_usd ∧
      row.store_id = e.store_id ∧ row.needs_review = e.needs_review ∧
      row.loaddate = now := by
  induction ins generalizing k with
  | nil => cases h
  | cons c rest ih =>
    simp only [mkStandaloneRows] at h
    rcases List.mem_cons.mp h with rfl | h'
    · exact ⟨c, List.mem_cons_self _ _, rfl, rfl, rfl, rfl, rfl⟩
    · rcases ih h' with ⟨e, he, hfields⟩
      exact ⟨e, List.mem_cons_of_mem _ he, hfields⟩

/-- Conversely, every inserted candidate yields a freshly stamped row. -/
theorem mkStandaloneRows_covers {k now : Nat} {ins : List StandaloneCand}
    {e : StandaloneCand} (h : e ∈ ins) :
    ∃ row ∈ mkStandaloneRows k now ins, row.ship_id = e.ship_id ∧
      row.price_usd = e.price_usd ∧ row.store_id = e.store_id ∧
      row.loaddate = now := by
  induction ins generalizing k with
  | nil => cases h
  | cons c rest ih =>
    rcases List.mem_cons.mp h with rfl | h'
    · exact ⟨⟨k, e.ship_id, e.price_usd, e.store_id, e.needs_review, now⟩,
        List.mem_cons_self _ _, rfl, rfl, rfl, rfl⟩
    · rcases ih (k := k + 1) h' with ⟨row, hrow, hfields⟩
      exact ⟨row, List.mem_cons_of_mem _ hrow, hfields⟩

/-- Membership in the standalone table after stale removal. -/
theorem mem_remove_stale {db : DB} {now : Nat} {r : StandaloneRow} :
    r ∈ (remove_stale_entities db now).standalones ↔
      r ∈ db.standalones ∧ standaloneStale r now = false := by
  simp [remove_stale_entities, List.mem_filter]

/-- Stale removal leaves the store table untouched. -/
theorem remove_stale_stores (db : DB) (now : Nat) :
    (remove_stale_entities db now).stores = db.stores := rfl

/-- Stale removal leaves the update log untouched. -/
theorem remove_stale_logs (db : DB) (now : Nat) :
    (remove_stale_entities db now).logs = db.logs := rfl

/-- `entity_exists` unfolded to an existential over the table. -/
theorem entity_exists_iff {rows : List StandaloneRow}
    {c : StandaloneCand} : entity_exists rows c = true ↔
      ∃ r ∈ rows, standaloneMatchesRow c r = true := by
  simp [entity_exists, List.any_eq_true]

/-- The updated standalone table for a non-empty candidate list: surviving
old rows followed by the freshly inserted rows. -/
theorem update_entities_standalones {db : DB}
    {cands : List StandaloneCand} {now : Nat} (h : cands.isEmpty = false) :
    (update_entities_rsi_standalones db cands now).1.standalones =
      (remove_stale_entities db now).standalones ++
        mkStandaloneRows
          (nextStandaloneId (remove_stale_entities db now).standalones) now
          (standalonesToInsert db cands now) := by
  simp [update_entities_rsi_standalones, h]

/-- The returned count for a non-empty candidate list. -/
theorem update_entities_count {db : DB} {cands : List StandaloneCand}
    {now : Nat} (h : cands.isEmpty = false) :
    (update_entities_rsi_standalones db cands now).2 =
      (standalonesToInsert db cands now).length := by
  simp [update_entities_rsi_standalones, h]

/-- The update keeps the store table unchanged. -/
theorem update_entities_stores (db : DB) (cands : List StandaloneCand)
    (now : Nat) :
    (update_entities_rsi_standalones db cands now).1.stores = db.stores := by
  by_cases h : cands.isEmpty <;> simp [update_entities_rsi_standalones, h,
    remove_stale_entities]

/-- `update_rsi_standalones` and the underlying `_update_entities` agree
on the standalone table. -/
theorem update_full_standalones (db : DB) (cands : List StandaloneCand)
    (now : Nat) :
    (update_rsi_standalones db cands now).1.standalones =
      (update_entities_rsi_standalones db cands now).1.standalones := rfl

/-- `update_rsi_standalones` and the underlying `_update_entities` agree
on the store table. -/
theorem update_full_stores (db : DB) (cands : List StandaloneCand)
    (now : Nat) :
    (update_rsi_standalones db cands now).1.stores =
      (update_entities_rsi_standalones db cands now).1.stores := rfl

/-- `update_rsi_standalones` returns the `_update_entities` count. -/
theorem update_full_count (db : DB) (cands : List StandaloneCand)
    (now : Nat) :
    (update_rsi_standalones db cands now).2 =
      (update_entities_rsi_standalones db cands now).2 := rfl

/-- Membership in the list of candidates that the update persists. -/
theorem mem_standalonesToInsert {db : DB} {cands : List StandaloneCand}
    {now : Nat} {e : StandaloneCand} :
    e ∈ standalonesToInsert db cands now ↔
      e ∈ pySet cands ∧
      (¬ ∃ r ∈ (remove_stale_entities db now).standalones,
        standaloneMatchesRow e r = true) ∧
      (¬ ∃ r ∈ rsi_standalones db, standaloneMatchesRow e r = true) := by
  simp only [standalonesToInsert, List.mem_filter, entity_exists,
    List.any_eq_true, decide_eq_true_eq]
  tauto

/- ### Claim C1 -/

/-- C1 (amended): a candidate whose natural key matches a persisted,
non-stale row of the category is ignored by `updateCategory`
(`EntityManager._update_entities`): the existing row survives entirely
unchanged — surrogate id, non-key attributes *and* `loaddate` — and no
row with that natural key is inserted or updated, so the row's `loaddate`
is *not* refreshed and a merely re-submitted row can still be evicted at
the next staleness eviction. -/
theorem C1_matched_candidate_ignored (db : DB)
    (cands : List StandaloneCand) (c : StandaloneCand)
    (r : StandaloneRow) (now : Nat)
    (hr : r ∈ db.standalones) (hfresh : standaloneStale r now = false)
    (hmatch : standaloneMatchesRow c r = true) (hc : c ∈ cands) :
    r ∈ (update_rsi_standalones db cands now).1.standalones ∧
      ∀ row ∈ (update_rsi_standalones db cands now).1.standalones,
        standaloneMatchesRow c row = true → row ∈ db.standalones := by
  have hne : cands.isEmpty = false := by
    cases cands with
    | nil => cases hc
    | cons a l => rfl
  rw [update_full_standalones, update_entities_standalones hne]
  constructor
  · exact List.mem_append_left _ (mem_remove_stale.mpr ⟨hr, hfresh⟩)
  · intro row hrow hrowmatch
    rcases List.mem_append.mp hrow with hold | hnew
    · exact (mem_remove_stale.mp hold).1
    · exfalso
      rcases mem_mkStandaloneRows hnew with
        ⟨e, he, hship, hprice, hstore, _, _⟩
      simp only [standaloneMatchesRow, Bool.and_eq_true,
        decide_eq_true_eq] at hrowmatch hmatch
      have hmatch_e_r : standaloneMatchesRow e r = true := by
        simp only [standaloneMatchesRow, Bool.and_eq_true,
          decide_eq_true_eq]
        refine ⟨?_, ?_, ?_⟩
        · rw [← hprice, ← hrowmatch.1, hmatch.1]
        · rw [← hstore, ← hrowmatch.2.1, hmatch.2.1]
        · rw [← hship, ← hrowmatch.2.2, hmatch.2.2]
      exact (mem_standalonesToInsert.mp he).2.1
        ⟨r, mem_remove_stale.mpr ⟨hr, hfresh⟩, hmatch_e_r⟩

/-- Concrete store for the C1/C3 scenarios: the RSI pledge store. -/
def rsiStore : StoreRow :=
  ⟨1, "RSI", "https://robertsspaceindustries.com/pledge"⟩

/-- Concrete persisted standalone: ship 3 at $100 from store 1, flagged
`needs_review`, loaded at instant 10. -/
def rowC1 : StandaloneRow := ⟨5, 3, 100, 1, true, 10⟩

/-- Candidate re-submitting exactly rowC1's natural key with a changed
non-key attribute (`needs_review = false`). -/
def candC1 : StandaloneCand := ⟨3, 100, 1, false⟩

/-- Concrete database holding only `rowC1`. -/
def dbC1 : DB := ⟨[rsiStore], [rowC1], []⟩

/-- C1 counterexample: re-ingesting `candC1`, whose natural key matches
the persisted `rowC1`, at instant 11 leaves the row byte-for-byte
unchanged — `needs_review` is still `true` (nothing merged) and
`loaddate` is still 10, not the claimed refreshed current time 11. -/
theorem C1_counterexample :
    (update_rsi_standalones dbC1 [candC1] 11).1.standalones =
      [⟨5, 3, 100, 1, true, 10⟩] ∧ (10 : Nat) ≠ 11 := by
  constructor
  · rfl
  · decide

/-- C1 witness: the amended theorem applied to the concrete scenario. -/
theorem C1_matched_candidate_ignored_witness :
    rowC1 ∈ (update_rsi_standalones dbC1 [candC1] 11).1.standalones ∧
      ∀ row ∈ (update_rsi_standalones dbC1 [candC1] 11).1.standalones,
        standaloneMatchesRow candC1 row = true →
          row ∈ dbC1.standalones :=
  C1_matched_candidate_ignored dbC1 [candC1] candC1 rowC1 11
    (by decide) (by decide) (by decide) (by decide)

/-- The RSI-filtered category snapshot only contains persisted rows. -/
theorem mem_of_mem_rsi_standalones {db : DB} {r : StandaloneRow}
    (h : r ∈ rsi_standalones db) : r ∈ db.standalones :=
  (List.mem_filter.mp h).1

/- ### Claim C3 -/

/-- C3 (amended): reconciliation is idempotent *provided no persisted row
matching a candidate's natural key is already stale at the time of the
calls*: if the candidate set contains at least one natural key that is
not persisted at all, the first `updateCategory` call returns a nonzero
count and an immediate second call with the same candidate set returns 0.
(Without the staleness proviso the second call can re-insert a key whose
stale row was evicted during the first call, as the counterexample
shows.) -/
theorem C3_idempotence (db : DB) (cands : List StandaloneCand) (now : Nat)
    (hnew : ∃ c ∈ cands, ∀ r ∈ db.standalones,
      standaloneMatchesRow c r = false)
    (hnostale : ∀ r ∈ db.standalones,
      (∃ c ∈ cands, standaloneMatchesRow c r = true) →
        standaloneStale r now = false) :
    (update_rsi_standalones db cands now).2 ≠ 0 ∧
      (update_rsi_standalones
        (update_rsi_standalones db cands now).1 cands now).2 = 0 := by
  obtain ⟨c, hc, hcnew⟩ := hnew
  have hne : cands.isEmpty = false := by
    cases cands with
    | nil => cases hc
    | cons a l => rfl
  have hfst : (update_rsi_standalones db cands now).2 ≠ 0 := by
    rw [update_full_count, update_entities_count hne]
    obtain ⟨d, hd, hkey⟩ := pySet_covers hc
    have hdins : d ∈ standalonesToInsert db cands now := by
      refine mem_standalonesToInsert.mpr ⟨hd, ?_, ?_⟩
      · rintro ⟨r, hr, hm⟩
        rw [standaloneMatchesRow_of_sameKey hkey r] at hm
        exact absurd hm (by simp [hcnew r (mem_remove_stale.mp hr).1])
      · rintro ⟨r, hr, hm⟩
        rw [standaloneMatchesRow_of_sameKey hkey r] at hm
        exact absurd hm
          (by simp [hcnew r (mem_of_mem_rsi_standalones hr)])
    have := List.length_pos.mpr (List.ne_nil_of_mem hdins)
    omega
  refine ⟨hfst, ?_⟩
  set db1 := (update_rsi_standalones db cands now).1 with hdb1
  have hdb1s : db1.standalones =
      (remove_stale_entities db now).standalones ++
        mkStandaloneRows
          (nextStandaloneId (remove_stale_entities db now).standalones)
          now (standalonesToInsert db cands now) := by
    rw [hdb1, update_full_standalones, update_entities_standalones hne]
  rw [update_full_count, update_entities_count hne]
  have hnil : standalonesToInsert db1 cands now = [] := by
    rw [List.eq_nil_iff_forall_not_mem]
    intro e he
    obtain ⟨hePy, heNE, _⟩ := mem_standalonesToInsert.mp he
    apply heNE
    by_cases hex :
        entity_exists (remove_stale_entities db now).standalones e = true
    · obtain ⟨r, hr, hm⟩ := entity_exists_iff.mp hex
      obtain ⟨hrdb, hrfresh⟩ := mem_remove_stale.mp hr
      refine ⟨r, mem_remove_stale.mpr ⟨?_, hrfresh⟩, hm⟩
      rw [hdb1s]
      exact List.mem_append_left _ hr
    · by_cases hins : e ∈ standalonesToInsert db cands now
      · obtain ⟨row, hrow, hship, hprice, hstore, hload⟩ :=
          @mkStandaloneRows_covers
            (nextStandaloneId (remove_stale_entities db now).standalones)
            now (standalonesToInsert db cands now) e hins
        have hrowfresh : standaloneStale row now = false := by
          simp [standaloneStale, hload, RSI_STANDALONE_DATA_EXPIRY]
        have hrowmem : row ∈ db1.standalones := by
          rw [hdb1s]
          exact List.mem_append_right _ hrow
        refine ⟨row, mem_remove_stale.mpr ⟨hrowmem, hrowfresh⟩, ?_⟩
        simp [standaloneMatchesRow, hship, hprice, hstore]
      · have hnotin := hins
        rw [mem_standalonesToInsert] at hnotin
        push_neg at hnotin
        have hB : ∀ r ∈ (remove_stale_entities db now).standalones,
            standaloneMatchesRow e r ≠ true := by
          intro r hr hm
          exact hex (entity_exists_iff.mpr ⟨r, hr, hm⟩)
        obtain ⟨r, hr, hm⟩ := hnotin hePy hB
        have hrdb : r ∈ db.standalones := mem_of_mem_rsi_standalones hr
        have hrfresh : standaloneStale r now = false :=
          hnostale r hrdb ⟨e, pySet_subset hePy, hm⟩
        refine ⟨r, mem_remove_stale.mpr ⟨?_, hrfresh⟩, hm⟩
        rw [hdb1s]
        exact List.mem_append_left _ (mem_remove_stale.mpr ⟨hrdb, hrfresh⟩)
  rw [hnil]
  rfl

/-- Database for the C3 counterexample: one *stale* RSI standalone
(ship 3, $100, store 1, loaded at instant 0). -/
def dbC3 : DB := ⟨[rsiStore], [⟨5, 3, 100, 1, false, 0⟩], []⟩

/-- Candidate set for the C3 counterexample: ship 3 at $100 re-submits
the stale row's natural key; ship 4 at $50 is genuinely new. -/
def candsC3 : List StandaloneCand := [⟨3, 100, 1, false⟩, ⟨4, 50, 1, false⟩]

/-- C3 counterexample: with a stale persisted row whose key reappears in
the candidates, the first call returns 1 (the genuinely new key; the
resubmitted key is ignored because it equals the *pre-eviction* snapshot)
and the second call also returns 1 (the evicted key is now re-inserted),
not the claimed 0. -/
theorem C3_counterexample :
    (update_rsi_standalones dbC3 candsC3 100000).2 = 1 ∧
      (update_rsi_standalones
        (update_rsi_standalones dbC3 candsC3 100000).1
        candsC3 100000).2 = 1 ∧ (1 : Nat) ≠ 0 := by
  refine ⟨rfl, rfl, by decide⟩

/-- C3 witness: starting from a database with no standalone rows, the
amended idempotence theorem applies, giving count 1 then count 0. -/
theorem C3_idempotence_witness :
    (update_rsi_standalones ⟨[rsiStore], [], []⟩ [⟨3, 100, 1, false⟩] 0).2
        ≠ 0 ∧
      (update_rsi_standalones
        (update_rsi_standalones ⟨[rsiStore], [], []⟩
          [⟨3, 100, 1, false⟩] 0).1 [⟨3, 100, 1, false⟩] 0).2 = 0 :=
  C3_idempotence ⟨[rsiStore], [], []⟩ [⟨3, 100, 1, false⟩] 0
    ⟨⟨3, 100, 1, false⟩, List.mem_singleton.mpr rfl,
      fun r hr => absurd hr (List.not_mem_nil r)⟩
    (fun r hr => absurd hr (List.not_mem_nil r))

/- ### Claim C9 -/

/-- The inserted-candidate list refines the deduplicated set. -/
theorem standalonesToInsert_sublist (db : DB)
    (cands : List StandaloneCand) (now : Nat) :
    (standalonesToInsert db cands now).Sublist (pySet cands) := by
  simp only [standalonesToInsert]
  exact (List.filter_sublist _).trans (List.filter_sublist _)

/-- C9: within one category-update call the candidates are collapsed by
natural key before persisting — the persisted candidates have pairwise
distinct natural keys (so at most one row is inserted per key), the
returned count never exceeds the number of distinct natural keys in the
input, and every persisted candidate comes from the input list. -/
theorem C9_duplicates_collapsed (db : DB) (cands : List StandaloneCand)
    (now : Nat) :
    (standalonesToInsert db cands now).Pairwise
        (fun a b => standaloneSameKey a b = false) ∧
      (update_entities_rsi_standalones db cands now).2 ≤
        (pySet cands).length ∧
      ∀ e ∈ standalonesToInsert db cands now, e ∈ cands := by
  refine ⟨(pySet_pairwise cands).sublist (standalonesToInsert_sublist db cands now), ?_, ?_⟩
  · by_cases h : cands.isEmpty
    · simp [update_entities_rsi_standalones, h]
    · rw [update_entities_count (eq_false_of_ne_true h)]
      exact (standalonesToInsert_sublist db cands now).length_le
  · intro e he
    exact pySet_subset (mem_standalonesToInsert.mp he).1

/- ### Claim C7 -/

/-- C7 (amended): a category update never trims the update log — it
appends exactly one `UpdateLog` row for the category (`_log_update`) and
deletes none, so the per-category row count can exceed the retention
limit; `_clean_update_logs` runs only at `EntityManager` construction,
not as part of an update. -/
theorem C7_update_appends_one_log_row (db : DB)
    (cands : List StandaloneCand) (now : Nat) :
    (update_rsi_standalones db cands now).1.logs =
      db.logs ++ [(UpdateTypeT.rsiStandalones, now)] := by
  by_cases h : cands.isEmpty <;>
    simp [update_rsi_standalones, log_update,
      update_entities_rsi_standalones, remove_stale_entities, h]

/-- Database reached by 101 successive (empty-candidate) category
updates, starting from an empty database. -/
def dbLogs101 : DB :=
  (List.range 101).foldl
    (fun db i => (update_rsi_standalones db [] i).1) ⟨[], [], []⟩

set_option maxRecDepth 8192 in
/-- C7 counterexample: after the 101st committed update of the category
the update log holds 101 rows for it, exceeding the retention limit of
100 — no trimming happened as part of the updates. -/
theorem C7_counterexample :
    logCountFor dbLogs101 UpdateTypeT.rsiStandalones = 101 ∧
      ¬ logCountFor dbLogs101 UpdateTypeT.rsiStandalones ≤
        UPDATE_LOGS_ENTRY_LIMIT := by
  refine ⟨by decide, by decide⟩

/- ### Claim C4 -/

/-- C4 counterexample: at length 0 the source threshold is 55, while the
claimed formula `base − clamp(floor(len·0.3), 0, 10)` gives 65. -/
theorem C4_counterexample :
    fuzzy_search_min_score 0 = 55 ∧ spec_min_score 0 = 65 ∧
      fuzzy_search_min_score 0 ≠ spec_min_score 0 := by
  decide

/-- C4 (amended): the acceptance threshold equals
`base − (maxOffset − clamp(floor(len·0.3), 0, maxOffset))`
`= 55 + clamp(floor(len·0.3), 0, 10)` — it *rises* with the length — and
it is applied with `len = min(|query|, |bestCandidate|)`
(`find_ship_id_by_name`, `src/db/manager.py` lines 390-392). -/
theorem C4_threshold_formula (n : Nat) (name : String)
    (results : List (String × Nat)) (r : String × Nat)
    (h : best_result results = some r) :
    fuzzy_search_min_score n = 55 + min (3 * n / 10) 10 ∧
      (accept_candidate name results = true ↔
        fuzzy_search_min_score (min name.length r.1.length) ≤ r.2) := by
  refine ⟨fuzzy_search_min_score_eq n, ?_⟩
  simp [accept_candidate, h]

/-- C4 witness: the amended theorem applied at length 7, query "ab" and
single extraction result ("abc", 70). -/
theorem C4_threshold_formula_witness :
    fuzzy_search_min_score 7 = 55 + min (3 * 7 / 10) 10 ∧
      (accept_candidate "ab" [("abc", 70)] = true ↔
        fuzzy_search_min_score (min "ab".length "abc".length) ≤ 70) :=
  C4_threshold_formula 7 "ab" [("abc", 70)] ("abc", 70) rfl

/- ### Claim C5 -/

/-- C5: the fuzzy-match threshold is monotonically non-decreasing in the
length: `m ≤ n` implies `minScore(m) ≤ minScore(n)`. -/
theorem C5_threshold_monotone (m n : Nat) (h : m ≤ n) :
    fuzzy_search_min_score m ≤ fuzzy_search_min_score n := by
  rw [fuzzy_search_min_score_eq, fuzzy_search_min_score_eq]
  have h1 : 3 * m / 10 ≤ 3 * n / 10 :=
    Nat.div_le_div_right (Nat.mul_le_mul_left 3 h)
  omega

/-- C5 witness: the monotonicity theorem applied at 4 ≤ 40. -/
theorem C5_threshold_monotone_witness :
    fuzzy_search_min_score 4 ≤ fuzzy_search_min_score 40 :=
  C5_threshold_monotone 4 40 (by decide)

/- ### Claim C8 -/

/-- C8 counterexample: with `last_updated = None` (hence expired) the
expiry query does not return `None` — it returns the sentinel string
`"(not expired)"`. -/
theorem C8_counterexample :
    expires_in none 5 10 ≠ none ∧
      expires_in none 5 10 = some ExpiresInStr.notExpiredSentinel := by
  decide

/-- C8 (amended): `expires_in` returns the constant sentinel string
`"(not expired)"` — not `None` — whenever the cache is expired (including
`lastRefreshed` null), and otherwise returns the formatted remaining time
`lastRefreshed + ttl − now`. -/
theorem C8_expires_in (last : Option Int) (lifetime now : Int) :
    (is_expired last lifetime now = true →
      expires_in last lifetime now =
        some ExpiresInStr.notExpiredSentinel) ∧
      ∀ t, last = some t → is_expired last lifetime now = false →
        expires_in last lifetime now =
          some (ExpiresInStr.formatted (t + lifetime - now)) := by
  constructor
  · intro h
    simp [expires_in, h]
  · intro t ht h
    subst ht
    simp [expires_in, h]

/-- C8 witness: the amended theorem applied to an expired cache
(`last_updated = None`) and to a fresh cache (`last_updated = 10`,
ttl 5, now 12, remaining 3). -/
theorem C8_expires_in_witness :
    expires_in none 5 10 = some ExpiresInStr.notExpiredSentinel ∧
      expires_in (some 10) 5 12 = some (ExpiresInStr.formatted 3) :=
  ⟨(C8_expires_in none 5 10).1 (by decide),
    (C8_expires_in (some 10) 5 12).2 10 rfl (by decide)⟩

/- ### The `dijkstra` library (external dependency of
src/data/analyze.py).  Modelled from the library used by the source:
`Graph.add_edge` records adjacency (set semantics) and a weight dict
keyed by the node pair (later assignments overwrite); `DijkstraSPF`
runs Dijkstra from a source with a priority queue; `get_path` follows
predecessor links from the target and raises `KeyError` when the target
was never reached (the behaviour `get_upgrade_path` catches). -/

/-- Python exceptions surfacing in the path-analyzer code paths. -/
inductive PyError where
  | valueError : PyError
  | keyError : PyError
  | indexError : PyError
deriving DecidableEq, Repr

/-- Association-list lookup (Python dict access, first binding wins for
reads because updates replace in place). -/
def lookupA {α : Type} (m : List (Nat × α)) (k : Nat) : Option α :=
  (m.find? (fun p => p.1 = k)).map (·.2)

/-- Association-list update (Python dict assignment). -/
def updateA {α : Type} : List (Nat × α) → Nat → α → List (Nat × α)
  | [], k, v => [(k, v)]
  | (a, b) :: rest, k, v =>
    if a = k then (k, v) :: rest else (a, b) :: updateA rest k v

/-- Adjacency structure and edge-weight dict of the library `Graph`. -/
structure DGraph where
  adjacency : List (Nat × List Nat)
  weights : List ((Nat × Nat) × Int)
deriving DecidableEq, Repr

/-- Record `v` as adjacent to `u` (set semantics: no duplicates). -/
def addAdjacent : List (Nat × List Nat) → Nat → Nat → List (Nat × List Nat)
  | [], u, v => [(u, [v])]
  | (a, ns) :: rest, u, v =>
    if a = u then (a, if v ∈ ns then ns else ns ++ [v]) :: rest
    else (a, ns) :: addAdjacent rest u v

/-- `Graph.add_edge(u, v, w)`: adjacency insert plus weight-dict
assignment (a later edge for the same pair overwrites the weight). -/
def DGraph.add_edge (g : DGraph) (u v : Nat) (w : Int) : DGraph :=
  ⟨addAdjacent g.adjacency u v, g.weights ++ [((u, v), w)]⟩

/-- `Graph.get_adjacent_nodes(u)`. -/
def DGraph.adjacent (g : DGraph) (u : Nat) : List Nat :=
  match g.adjacency.find? (fun p => p.1 = u) with
  | some p => p.2
  | none => []

/-- `Graph.get_edge_weight(u, v)`: the weight dict is modelled as the
assignment log, so the *last* binding for the pair wins; `none` models
the `KeyError` on a missing pair. -/
def DGraph.edge_weight (g : DGraph) (u v : Nat) : Option Int :=
  ((g.weights.filter (fun p => p.1 = (u, v))).getLast?).map (·.2)

/-- Pick the lexicographically smaller (priority, node) pair — the order
Python's heapq uses for its pops. -/
def minPair (x y : Int × Nat) : Int × Nat :=
  if y.1 < x.1 ∨ (y.1 = x.1 ∧ y.2 < x.2) then y else x

/-- Remove the first occurrence of a pair from the queue. -/
def removeFirst : List (Int × Nat) → (Int × Nat) → List (Int × Nat)
  | [], _ => []
  | x :: xs, m => if x = m then xs else x :: removeFirst xs m

/-- Pop the minimal (priority, node) pair from the queue. -/
def popMin (q : List (Int × Nat)) :
    Option ((Int × Nat) × List (Int × Nat)) :=
  match q with
  | [] => none
  | x :: xs =>
    let m := xs.foldl minPair x
    some (m, removeFirst q m)

/-- Per-neighbor relaxation step of the Dijkstra main loop: for each
non-visited neighbor `v` of `u`, if `dist[u] + w(u, v)` improves on
`dist[v]` (infinite when absent), update `dist`/`prev` and push the pair
onto the queue. -/
def relaxAll (g : DGraph) (u : Nat) (du : Int) (visited : List Nat)
    (s : List (Nat × Int) × List (Nat × Nat) × List (Int × Nat))
    (v : Nat) :
    List (Nat × Int) × List (Nat × Nat) × List (Int × Nat) :=
  if v ∈ visited then s
  else
    match g.edge_weight u v with
    | none => s
    | some w =>
      let alt := du + w
      let better := match lookupA s.1 v with
        | none => true
        | some dv => decide (alt < dv)
      if better then
        (updateA s.1 v alt, updateA s.2.1 v u, s.2.2 ++ [(alt, v)])
      else s

/-- Dijkstra main loop (fuel-recursive model of the while loop). -/
def dijkstra_loop (g : DGraph) :
    Nat → List (Nat × Int) → List (Nat × Nat) → List Nat →
      List (Int × Nat) → List (Nat × Int) × List (Nat × Nat)
  | 0, dist, prev, _, _ => (dist, prev)
  | fuel + 1, dist, prev, visited, queue =>
    match popMin queue with
    | none => (dist, prev)
    | some ((_, u), rest) =>
      if u ∈ visited then dijkstra_loop g fuel dist prev visited rest
      else
        let visited' := visited ++ [u]
        match lookupA dist u with
        | none => dijkstra_loop g fuel dist prev visited' rest
        | some du =>
          let s := (g.adjacent u).foldl (relaxAll g u du visited')
            (dist, prev, rest)
          dijkstra_loop g fuel s.1 s.2.1 visited' s.2.2

/-- Shortest-path-first result: the `dist` and `prev` maps. -/
structure SPF where
  dist : List (Nat × Int)
  prev : List (Nat × Nat)
deriving DecidableEq, Repr

/-- `DijkstraSPF(G, s)`: initialise `dist[s] = 0`, `prev[s] = s`, seed
the queue with `(0, s)` and run the loop.  The fuel bounds the number of
queue pops; each edge pushes at most once per relaxation, so
`(edges + 2) * (edges + 2)` iterations always suffice. -/
def DijkstraSPF (g : DGraph) (s : Nat) : SPF :=
  let fuel := (g.weights.length + 2) * (g.weights.length + 2)
  let r := dijkstra_loop g fuel [(s, 0)] [(s, s)] [] [(0, s)]
  ⟨r.1, r.2⟩

/-- `get_path` predecessor walk: `path = [v]`, then while
`prev[v] != v` append `prev[v]`; the reversal is built in by prepending.
`none` models the `KeyError` raised when `v` has no predecessor entry,
i.e. was never reached. -/
def get_path_loop (prev : List (Nat × Nat)) :
    Nat → Nat → List Nat → Option (List Nat)
  | 0, _, _ => none
  | fuel + 1, v, acc =>
    match lookupA prev v with
    | none => none
    | some u =>
      if u = v then some (v :: acc)
      else get_path_loop prev fuel u (v :: acc)

/-- `DijkstraSPF.get_path(v)`. -/
def SPF.get_path (spf : SPF) (v : Nat) : Option (List Nat) :=
  get_path_loop spf.prev (spf.prev.length + 1) v []

/- ### src/data/analyze.py — `PathAnalyzer` -/

/-- `_SHIP_ID_NONE` from `src/data/analyze.py` line 50: the synthetic
origin node. -/
def SHIP_ID_NONE : Nat := 0

/-- The analyzer's snapshot state: offer lists plus the built graph. -/
structure PAState where
  standalones : List StandaloneRow
  upgrades : List UpgradeRow
  graph : DGraph
deriving DecidableEq, Repr

/-- `PathAnalyzer.update` (`src/data/analyze.py` lines 61-76): rebuild
the graph from the given catalog lists (the source passes the confirmed
offers, `include_unconfirmed=False`): an edge origin → ship per
standalone and an edge from → to per upgrade, weighted by price. -/
def pa_update (standalones : List StandaloneRow)
    (upgrades : List UpgradeRow) : PAState :=
  let g0 : DGraph := ⟨[], []⟩
  let g1 := standalones.foldl
    (fun g s => g.add_edge SHIP_ID_NONE s.ship_id s.price_usd) g0
  let g2 := upgrades.foldl
    (fun g u => g.add_edge u.ship_id_from u.ship_id_to u.price_usd) g1
  ⟨standalones, upgrades, g2⟩

/-- Stable insertion by non-decreasing price (Python's `list.sort` is
stable: among equal prices the earlier element stays first). -/
def insertByPrice {α : Type} (price : α → Int) (x : α) :
    List α → List α
  | [] => [x]
  | y :: ys =>
    if price x ≤ price y then x :: y :: ys
    else y :: insertByPrice price x ys

/-- Stable sort by price, ascending. -/
def sortByPrice {α : Type} (price : α → Int) (l : List α) : List α :=
  l.foldr (insertByPrice price) []

/-- `PathAnalyzer._resolve_standalone` (`src/data/analyze.py` lines
78-88): filter the snapshot by exact ship and price, sort by price
(stable) and take the first; `none` models the `ValueError` raised on an
empty candidate list. -/
def resolve_standalone (standalones : List StandaloneRow)
    (ship_id : Nat) (price_usd : Int) : Option StandaloneRow :=
  let candidates := standalones.filter
    (fun s => s.ship_id = ship_id ∧ s.price_usd = price_usd)
  (sortByPrice (·.price_usd) candidates).head?

/-- `PathAnalyzer._resolve_upgrade` (`src/data/analyze.py` lines
90-104): same shape over the upgrade snapshot and the endpoint pair. -/
def resolve_upgrade (upgrades : List UpgradeRow)
    (ship_id_from ship_id_to : Nat) (price_usd : Int) :
    Option UpgradeRow :=
  let candidates := upgrades.filter
    (fun u => u.ship_id_from = ship_id_from ∧
      u.ship_id_to = ship_id_to ∧ u.price_usd = price_usd)
  (sortByPrice (·.price_usd) candidates).head?

/-- `PathAnalyzer._resolve_upgrade_path` (`src/data/analyze.py` lines
106-120): for each consecutive node pair on the path, look up the edge
weight (`KeyError` if the pair is absent from the weight dict) and
resolve it to a concrete upgrade (`ValueError` if none matches). -/
def resolve_upgrade_path (st : PAState) :
    List Nat → Except PyError (List UpgradeRow)
  | u :: v :: rest =>
    match st.graph.edge_weight u v with
    | none => Except.error PyError.keyError
    | some w =>
      match resolve_upgrade st.upgrades u v w with
      | none => Except.error PyError.valueError
      | some up =>
        match resolve_upgrade_path st (v :: rest) with
        | Except.error e => Except.error e
        | Except.ok ups => Except.ok (up :: ups)
  | _ => Except.ok []

/-- `PathAnalyzer.get_upgrade_path` (`src/data/analyze.py` lines
122-136): origin as start is a usage error (`ValueError`); the
`dspf.get_path` call sits inside `try/except KeyError`, so an
unreachable target yields `None`; resolution errors propagate.  The
result carries the resolved upgrades and their summed total cost. -/
def get_upgrade_path (st : PAState)
    (start_ship_id target_ship_id : Nat) :
    Except PyError (Option (List UpgradeRow × Int)) :=
  if start_ship_id = SHIP_ID_NONE then Except.error PyError.valueError
  else
    let dspf := DijkstraSPF st.graph start_ship_id
    match dspf.get_path target_ship_id with
    | none => Except.ok none
    | some path =>
      match resolve_upgrade_path st path with
      | Except.error e => Except.error e
      | Except.ok ups =>
        Except.ok (some (ups, (ups.map (·.price_usd)).foldl (· + ·) 0))

/-- `PathAnalyzer.get_purchase_path` (`src/data/analyze.py` lines
138-148): the `dspf.get_path` call is *not* wrapped in `try`, so its
`KeyError` on an unreachable target propagates; `path[0]`/`path[1]`
indexing can raise `IndexError`; only the `_resolve_upgrade_path` call
is guarded, and only against `KeyError`. -/
def get_purchase_path (st : PAState) (target_ship_id : Nat) :
    Except PyError (Option (StandaloneRow × List UpgradeRow × Int)) :=
  let dspf := DijkstraSPF st.graph SHIP_ID_NONE
  match dspf.get_path target_ship_id with
  | none => Except.error PyError.keyError
  | some path =>
    match path.get? 0, path.get? 1 with
    | some p0, some p1 =>
      match st.graph.edge_weight p0 p1 with
      | none => Except.error PyError.keyError
      | some w =>
        match resolve_standalone st.standalones p1 w with
        | none => Except.error PyError.valueError
        | some sa =>
          match resolve_upgrade_path st (path.drop 1) with
          | Except.error PyError.keyError => Except.ok none
          | Except.error e => Except.error e
          | Except.ok ups =>
            Except.ok (some (sa, ups,
              (ups.map (·.price_usd)).foldl (· + ·) 0))
    | _, _ => Except.error PyError.indexError

deriving instance DecidableEq for Except

set_option maxRecDepth 8192 in
/-- Sanity check of the shortest-path model on the spec §8 scenario:
ships 1, 2, 3 with Standalone(1) = $5, Upgrade(1→2) = $10,
Upgrade(2→3) = $20, Standalone(3) = $100.  The purchase path to ship 3
starts with the $5 standalone and follows the two upgrades (upgrade
total $30, overall $35), not the direct $100 offer. -/
theorem purchase_path_sanity :
    get_purchase_path
      (pa_update
        [⟨1, 1, 5, 1, false, 0⟩, ⟨2, 3, 100, 1, false, 0⟩]
        [⟨1, 1, 2, 10, 1, false, 0⟩, ⟨2, 2, 3, 20, 1, false, 0⟩]) 3 =
      Except.ok (some (⟨1, 1, 5, 1, false, 0⟩,
        [⟨1, 1, 2, 10, 1, false, 0⟩, ⟨2, 2, 3, 20, 1, false, 0⟩], 30)) := by
  decide

/- ### Claim C2 -/

/-- C2: on the empty graph snapshot (analyzer before any catalog data),
`get_upgrade_path(1, 60)` returns `None` for the unreachable target —
its `dspf.get_path` call is guarded by `try/except KeyError` — but
`get_purchase_path(1)` raises `KeyError` instead of returning `None`,
because its `dspf.get_path(target_ship_id)` call sits *outside* the
`try` block (`src/data/analyze.py` line 140); the repository's own test
(`src/test/test_analyze.py` line 11) expects `None` here. -/
theorem C2_unreachable_target :
    get_upgrade_path (pa_update [] []) 1 60 = Except.ok none ∧
      get_purchase_path (pa_update [] []) 1 =
        Except.error PyError.keyError := by
  constructor <;> rfl

/- ### Claim C6 -/

/-- Stable sorting by price is the identity on lists whose entries all
share one price. -/
theorem sortByPrice_const {α : Type} (price : α → Int) (p : Int) :
    ∀ l : List α, (∀ x ∈ l, price x = p) → sortByPrice price l = l := by
  intro l
  induction l with
  | nil => intro _; rfl
  | cons x rest ih =>
    intro h
    have hx : price x = p := h x (List.mem_cons_self _ _)
    have hrest : sortByPrice price rest = rest :=
      ih (fun y hy => h y (List.mem_cons_of_mem _ hy))
    show insertByPrice price x (sortByPrice price rest) = x :: rest
    rw [hrest]
    cases rest with
    | nil => rfl
    | cons y ys =>
      have hy : price y = p := h y (List.mem_cons_of_mem _
        (List.mem_cons_self _ _))
      simp [insertByPrice, hx, hy]

/-- C6 (amended): edge resolution is deterministic but picks the *first*
matching offer in the analyzer's stored catalog order — the sort by
price is a no-op because every candidate already carries the queried
price — not the offer with the lowest id among equal prices. -/
theorem C6_resolution_first_match (ups : List UpgradeRow)
    (f t : Nat) (p : Int) (sas : List StandaloneRow) (sid : Nat)
    (q : Int) :
    resolve_upgrade ups f t p =
      (ups.filter (fun u => u.ship_id_from = f ∧ u.ship_id_to = t ∧
        u.price_usd = p)).head? ∧
      resolve_standalone sas sid q =
        (sas.filter (fun s => s.ship_id = sid ∧
          s.price_usd = q)).head? := by
  constructor
  · have hall : ∀ x ∈ ups.filter (fun u => u.ship_id_from = f ∧
        u.ship_id_to = t ∧ u.price_usd = p),
        (fun u : UpgradeRow => u.price_usd) x = p := by
      intro x hx
      have hx2 := (List.mem_filter.mp hx).2
      simp only [decide_eq_true_eq] at hx2
      exact hx2.2.2
    simp only [resolve_upgrade]
    rw [sortByPrice_const _ p _ hall]
  · have hall : ∀ x ∈ sas.filter (fun s => s.ship_id = sid ∧
        s.price_usd = q),
        (fun s : StandaloneRow => s.price_usd) x = q := by
      intro x hx
      have hx2 := (List.mem_filter.mp hx).2
      simp only [decide_eq_true_eq] at hx2
      exact hx2.2
    simp only [resolve_standalone]
    rw [sortByPrice_const _ q _ hall]

/-- Upgrade catalog for the C6 counterexample: two offers for the same
endpoint pair (1 → 2) at the same price $10, with the *higher* id 2
stored first. -/
def upsC6 : List UpgradeRow :=
  [⟨2, 1, 2, 10, 1, false, 0⟩, ⟨1, 1, 2, 10, 1, false, 0⟩]

/-- C6 counterexample: both offers tie on price for the pair, yet
resolution returns the offer with id 2 (first in catalog order), not the
lowest offer id 1 as claimed. -/
theorem C6_counterexample :
    (resolve_upgrade upsC6 1 2 10).map (·.id) = some 2 ∧
      (⟨1, 1, 2, 10, 1, false, 0⟩ : UpgradeRow) ∈ upsC6 ∧
      (2 : Nat) ≠ 1 := by
  refine ⟨rfl, by decide, by decide⟩

/- ### src/broker.py — `SCDataBroker._update_reddit_entries` -/

/-- `ParsedRedditSubmissionEntry`
(`src/data/scraper/submissionparser.py`): the category tag, the raw ship
name(s), the parsed price and the store coordinates. -/
structure ParsedRedditSubmissionEntry where
  update_type : UpdateTypeT
  ship_name : String
  ship_name_from : String
  ship_name_to : String
  price_usd : Int
  store_owner : String
  store_url : String
deriving DecidableEq, Repr

/-- Next autoincrement surrogate id for the `STORES` table. -/
def nextStoreId (stores : List StoreRow) : Nat :=
  (stores.map (·.id)).foldl max 0 + 1

/-- `EntityManager.find_store` (`src/db/manager.py` lines 149-165): find
the store by `(username, url)` or create it with a fresh id. -/
def find_store (stores : List StoreRow) (username url : String) :
    StoreRow × List StoreRow :=
  match stores.find? (fun s => s.username = username ∧ s.url = url) with
  | some s => (s, stores)
  | none =>
    let s : StoreRow := ⟨nextStoreId stores, username, url⟩
    (s, stores ++ [s])

/-- `SCDataBroker._update_reddit_entries` classification loop
(`src/broker.py` lines 152-192).  `resolver` abstracts
`EntityManager.find_ship_id_by_name`: `none` when the name does not
resolve, otherwise the ship id and its `needs_review` flag.  For each
entry the store is looked up or created first (line 155); a standalone
entry is kept only if its single name resolves; an upgrade entry is kept
only if *both* endpoint names resolve, with
`needs_review = any([needs_review_from, needs_review_to])` (line 180);
all other entries contribute nothing.  Returns the final store table and
the built standalone and upgrade candidates, in entry order. -/
def update_reddit_entries (resolver : String → Option (Nat × Bool))
    (stores : List StoreRow) :
    List ParsedRedditSubmissionEntry →
      List StoreRow × List StandaloneCand × List UpgradeCand
  | [] => (stores, [], [])
  | e :: rest =>
    let fs := find_store stores e.store_owner e.store_url
    let r := update_reddit_entries resolver fs.2 rest
    match e.update_type with
    | UpdateTypeT.redditStandalones =>
      match resolver e.ship_name with
      | some (ship_id, nr) =>
        (r.1, ⟨ship_id, e.price_usd, fs.1.id, nr⟩ :: r.2.1, r.2.2)
      | none => r
    | UpdateTypeT.redditUpgrades =>
      match resolver e.ship_name_from, resolver e.ship_name_to with
      | some (id_from, nr_from), some (id_to, nr_to) =>
        (r.1, r.2.1,
          ⟨id_from, id_to, e.price_usd, fs.1.id, nr_from || nr_to⟩ ::
            r.2.2)
      | _, _ => r
    | _ => r

/- ### Claim C10 -/

/-- C10: the upgrade offers built by the Reddit ingestion loop are
exactly the upgrade-type entries both of whose endpoint names resolve —
an entry either of whose names fails to resolve is dropped entirely —
and each built offer's `needs_review` flag is the disjunction of the two
resolutions' `needs_review` flags (true iff at least one of them is
true).  Stated as an equality of the projected build result with a
direct filter-map of the entry list. -/
theorem C10_upgrade_needs_review (resolver : String → Option (Nat × Bool))
    (stores : List StoreRow) (entries : List ParsedRedditSubmissionEntry) :
    (update_reddit_entries resolver stores entries).2.2.map
        (fun u => (u.ship_id_from, u.ship_id_to, u.price_usd,
          u.needs_review)) =
      entries.filterMap (fun e =>
        match e.update_type with
        | UpdateTypeT.redditUpgrades =>
          match resolver e.ship_name_from, resolver e.ship_name_to with
          | some (id_from, nr_from), some (id_to, nr_to) =>
            some (id_from, id_to, e.price_usd, nr_from || nr_to)
          | _, _ => none
        | _ => none) := by
  induction entries generalizing stores with
  | nil => rfl
  | cons e rest ih =>
    simp only [update_reddit_entries, List.filterMap_cons]
    cases htype : e.update_type
    case redditStandalones =>
      cases hr : resolver e.ship_name
      case none => simpa using ih _
      case some v => simpa using ih _
    case redditUpgrades =>
      cases hrf : resolver e.ship_name_from
      case none => simpa using ih _
      case some vf =>
        obtain ⟨id_from, nr_from⟩ := vf
        cases hrt : resolver e.ship_name_to
        case none => simpa using ih _
        case some vt =>
          obtain ⟨id_to, nr_to⟩ := vt
          simpa using ih _
    case manufacturers => simpa using ih _
    case ships => simpa using ih _
    case rsiStandalones => simpa using ih _
    case rsiUpgrades => simpa using ih _
